import Mathlib

/-!
Shallow embedding of the engagement-card backend (`src/unnamed/part_000`,
with the older variants `src/index.js` / `src/unnamed/part_001` agreeing on
the parts modelled here unless noted).  The embedding covers:

* the JavaScript value/truthiness semantics used by the request handlers,
* the script classifier (the languageRegex test, part_000 lines 100-104),
* the text-placement geometry of the image compositor (line 110),
* the four HTTP request handlers as state-transition functions over a
  server state holding the storage bucket contents and the guest records.
-/

namespace Hedayat

/-! ## JavaScript values and truthiness

The fields of `req.body` (`name`, `number`, `twoNames`) are arbitrary JSON
values; the handlers branch on JavaScript truthiness (`!name || !number`,
`twoNames ? 180 : -35`).  JSON numbers are modelled as rationals (JS
doubles are exact on the values exercised here; `NaN` does not arise from
parsing JSON literals). -/

inductive JSValue where
  | undefined : JSValue
  | null : JSValue
  | bool (b : Bool) : JSValue
  | num (n : ℚ) : JSValue
  | str (s : String) : JSValue
deriving DecidableEq

/-- JavaScript truthiness: `undefined`, `null`, `false`, `0` and `""` are
falsy; every other value modelled here is truthy. -/
def truthy : JSValue → Bool
  | .undefined => false
  | .null => false
  | .bool b => b
  | .num n => decide (n ≠ 0)
  | .str s => decide (s ≠ "")

/-- String coercion applied by the record store when persisting a value
into a `String` schema field (identity on strings, `String(v)` on the
other primitives). -/
def jsToString : JSValue → String
  | .undefined => "undefined"
  | .null => "null"
  | .bool true => "true"
  | .bool false => "false"
  | .num n => toString n
  | .str s => s

/-! ## Script classifier

Source, part_000 lines 100-104:

    let englishText = false;
    const languageRegex = /^[a-zA-Z\s...accented Latin letters...\s]+$/;
    if (languageRegex.test(name)) { englishText = true; }

The regex is anchored (`^[...]+$`), so it matches exactly the non-empty
strings all of whose characters lie in the character class. -/

/-- Character set matched by `\s` in a JavaScript regular expression:
tab, line feed, vertical tab, form feed, carriage return, space, NBSP,
Ogham space mark, U+2000..U+200A, line/paragraph separators, narrow NBSP,
medium mathematical space, ideographic space, and BOM. -/
def isJsWhitespace (c : Char) : Bool :=
  c.val = 0x09 || c.val = 0x0a || c.val = 0x0b || c.val = 0x0c ||
  c.val = 0x0d || c.val = 0x20 || c.val = 0xa0 || c.val = 0x1680 ||
  (0x2000 ≤ c.val && c.val ≤ 0x200a) ||
  c.val = 0x2028 || c.val = 0x2029 || c.val = 0x202f || c.val = 0x205f ||
  c.val = 0x3000 || c.val = 0xfeff

/-- Accented-Latin letters listed explicitly in the character class of
`languageRegex`, in source order (the duplicated lowercase umlauts are
kept; a character class has set semantics). -/
def latinAccented : List Char :=
  ['ä', 'ö', 'ü', 'Ä', 'Ö', 'Ü', 'ß',
   'à', 'á', 'â', 'ã', 'ä', 'å', 'ç', 'è', 'é', 'ê', 'ë',
   'ì', 'í', 'î', 'ï', 'ð', 'ñ', 'ò', 'ó', 'ô', 'õ', 'ö', 'ø',
   'ù', 'ú', 'û', 'ü', 'ý', 'ÿ',
   'À', 'Á', 'Â', 'Ã', 'Ä', 'Å', 'Ç', 'È', 'É', 'Ê', 'Ë',
   'Ì', 'Í', 'Î', 'Ï', 'Ð', 'Ñ', 'Ò', 'Ó', 'Ô', 'Õ', 'Ö', 'Ø',
   'Ù', 'Ú', 'Û', 'Ü', 'Ý']

/-- Membership in the character class of `languageRegex`:
`a-z`, `A-Z`, `\s`, or one of the listed accented-Latin letters. -/
def isLangChar (c : Char) : Bool :=
  ('a' ≤ c && c ≤ 'z') || ('A' ≤ c && c ≤ 'Z') ||
  isJsWhitespace c || latinAccented.contains c

/-- Result of `languageRegex.test(name)`: the anchored `^[...]+$` pattern
matches exactly the non-empty strings whose characters all belong to the
class. -/
def languageRegexTest (name : String) : Bool :=
  decide (name ≠ "") && name.toList.all isLangChar

/-- Value of `englishText` after the classifier block of the fill-image
handler. -/
def englishText (name : String) : Bool :=
  languageRegexTest name

/-- Font selected by `ctx.font = englishText ? '26px EnglishFont' :
'26px ArabicFont'` (part_000 line 106). -/
def ctxFont (name : String) : String :=
  if englishText name then "26px EnglishFont" else "26px ArabicFont"

/-! ## Compositor text placement

Source, part_000 line 110:

    ctx.fillText(name, ((canvas.width / 2) - 50),
                 (canvas.height / 2) - (twoNames ? 180 : -35));

`canvas.width`/`canvas.height` are the template's dimensions; JS `/` is
exact rational division on the values arising here. -/

/-- Horizontal coordinate of the rendered name: `(canvas.width / 2) - 50`. -/
def fillTextX (w : ℚ) : ℚ := w / 2 - 50

/-- Vertical coordinate of the rendered name for a boolean `twoNames`:
`(canvas.height / 2) - (twoNames ? 180 : -35)`. -/
def fillTextY (h : ℚ) (twoNames : Bool) : ℚ :=
  h / 2 - (if twoNames then 180 else -35)

/-- Vertical coordinate as actually computed from the raw request field:
the conditional branches on JavaScript truthiness of `twoNames`. -/
def jsFillTextY (h : ℚ) (twoNames : JSValue) : ℚ :=
  fillTextY h (truthy twoNames)

/-! ## Data model and server state

The persisted entity is the mongoose `Card` model (part_000 lines 35-42):
`name`, `number`, `imagePath`, all required strings, plus the store-assigned
identifier.  The object store is modelled as the list of uploaded object
names; the record store as the list of stored records. -/

structure GuestRecord where
  id : String
  name : String
  number : String
  imagePath : String
deriving DecidableEq

structure ServerState where
  bucket : List String
  records : List GuestRecord
deriving DecidableEq

/-- Initial server state: empty bucket, empty collection. -/
def initState : ServerState := ⟨[], []⟩

/-- JSON error body `{status, message}` used by all failure responses. -/
structure ErrBody where
  status : String
  message : String
deriving DecidableEq

/-- Validity check `mongoose.Types.ObjectId.isValid` applied to a string
(part_000 line 171).  Modelled from the mongoose driver's documented
semantics: a string is a valid ObjectId when it is 24 hexadecimal
characters, or any 12-character string (interpreted as 12 raw bytes). -/
def isValidObjectId (s : String) : Bool :=
  s.length = 12 || (s.length = 24 && s.toList.all fun c =>
    ('0' ≤ c && c ≤ '9') || ('a' ≤ c && c ≤ 'f') || ('A' ≤ c && c ≤ 'F'))

/-- Removal of the first record with the given id, returning the removed
record (if any) and the remaining collection; models the effect of
`findByIdAndDelete` on the stored collection. -/
def removeById (id : String) : List GuestRecord → Option GuestRecord × List GuestRecord
  | [] => (none, [])
  | r :: rs =>
    if r.id = id then (some r, rs)
    else
      let p := removeById id rs
      (p.1, r :: p.2)

/-! ## POST /fill-image (part_000 lines 87-141)

The handler validates `name`/`number` by truthiness, composes the image,
uploads the buffer (`file.save`), issues a signed URL (`getSignedUrl`),
and stores the record (`newSample.save`); any thrown error is caught and
mapped to a 500 `{status:"nok", message:"Failed to create image"}`.

External outcomes (template load, upload, URL signing, database write)
are supplied by a `FillEnv` oracle; `sign` is the gateway's signed-URL
issuance, a function of the object name. -/

structure FillEnv where
  templateOk : Bool
  uploadOk : Bool
  signOk : Bool
  dbOk : Bool
  fileName : String
  newId : String

inductive FillResponse where
  | badRequest (body : ErrBody) : FillResponse
  | serverError (body : ErrBody) : FillResponse
  | created (card : GuestRecord) : FillResponse
deriving DecidableEq

def fillImage (sign : String → String) (env : FillEnv)
    (name number _twoNames : JSValue) (s : ServerState) :
    FillResponse × ServerState :=
  if !truthy name || !truthy number then
    (.badRequest ⟨"nok", "Name and number are required"⟩, s)
  else if !env.templateOk then
    (.serverError ⟨"nok", "Failed to create image"⟩, s)
  else
    -- compose: classify `name`, draw it at (fillTextX w, jsFillTextY h twoNames)
    -- with font `ctxFont name`; the encoded buffer is what gets uploaded.
    if !env.uploadOk then
      (.serverError ⟨"nok", "Failed to create image"⟩, s)
    else
      let s1 : ServerState := ⟨s.bucket ++ [env.fileName], s.records⟩
      if !env.signOk then
        (.serverError ⟨"nok", "Failed to create image"⟩, s1)
      else
        let imageUrl := sign env.fileName
        if !env.dbOk then
          (.serverError ⟨"nok", "Failed to create image"⟩, s1)
        else
          let savedRecord : GuestRecord :=
            ⟨env.newId, jsToString name, jsToString number, imageUrl⟩
          (.created savedRecord, ⟨s1.bucket, s1.records ++ [savedRecord]⟩)

/-! ## DELETE /guests_list/:id (part_000 lines 144-162)

The handler calls `findByIdAndDelete(sampleId)` directly; mongoose casts
the id to an ObjectId first and throws a `CastError` on a malformed id,
which the handler's catch block maps to a 500, like any other store
error.  A well-formed but absent id yields `null`, mapped to 404. -/

inductive DeleteResponse where
  | notFound (body : ErrBody) : DeleteResponse
  | serverError (body : ErrBody) : DeleteResponse
  | deleted (status message : String) (deletedSample : GuestRecord) : DeleteResponse
deriving DecidableEq

def deleteGuest (dbOk : Bool) (id : String) (s : ServerState) :
    DeleteResponse × ServerState :=
  if !isValidObjectId id then
    (.serverError ⟨"nok", "Failed to delete guest"⟩, s)
  else if !dbOk then
    (.serverError ⟨"nok", "Failed to delete guest"⟩, s)
  else
    match removeById id s.records with
    | (none, _) => (.notFound ⟨"not found", "Record not found"⟩, s)
    | (some r, rest) =>
      (.deleted "success" "Record deleted successfully" r, ⟨s.bucket, rest⟩)

/-! ## GET /get-image/:id (part_000 lines 165-212)

The handler first checks `mongoose.Types.ObjectId.isValid(guestId)` and
returns 400 `{status:"nok", message:"Invalid guest ID"}` on a malformed
id; then 404 when the record is absent or has no image path; then fetches
the stored URL (failure mapped to 500).  The binary payload and the
Content-Disposition header encoding are elided: the response carries the
URL that was fetched. -/

inductive GetImageResponse where
  | badRequest (body : ErrBody) : GetImageResponse
  | notFound (body : ErrBody) : GetImageResponse
  | serverError (body : ErrBody) : GetImageResponse
  | file (imagePath : String) : GetImageResponse
deriving DecidableEq

def getImage (dbOk fetchOk : Bool) (fetchErrMsg : String) (id : String)
    (s : ServerState) : GetImageResponse × ServerState :=
  if !isValidObjectId id then
    (.badRequest ⟨"nok", "Invalid guest ID"⟩, s)
  else if !dbOk then
    (.serverError ⟨"nok", "Failed to fetch image: " ++ fetchErrMsg⟩, s)
  else
    match s.records.find? (fun r => r.id = id) with
    | none => (.notFound ⟨"not found", "Guest or image not found"⟩, s)
    | some guest =>
      if guest.imagePath = "" then
        (.notFound ⟨"not found", "Guest or image not found"⟩, s)
      else if !fetchOk then
        (.serverError ⟨"nok", "Failed to fetch image: " ++ fetchErrMsg⟩, s)
      else
        (.file guest.imagePath, s)

/-! ## GET /guests_list (part_000 lines 76-84) -/

inductive ListResponse where
  | serverError (body : ErrBody) : ListResponse
  | ok (records : List GuestRecord) : ListResponse
deriving DecidableEq

def guestsList (dbOk : Bool) (s : ServerState) : ListResponse × ServerState :=
  if !dbOk then (.serverError ⟨"nok", "Failed to fetch guests list"⟩, s)
  else (.ok s.records, s)

/-! ## Reachable states

One step is one request handled to completion by any of the four
handlers; the server starts from the empty state. -/

inductive Step (sign : String → String) : ServerState → ServerState → Prop
  | fill (env : FillEnv) (name number twoNames : JSValue) (s : ServerState) :
      Step sign s (fillImage sign env name number twoNames s).2
  | del (dbOk : Bool) (id : String) (s : ServerState) :
      Step sign s (deleteGuest dbOk id s).2
  | img (dbOk fetchOk : Bool) (msg id : String) (s : ServerState) :
      Step sign s (getImage dbOk fetchOk msg id s).2
  | list (dbOk : Bool) (s : ServerState) :
      Step sign s (guestsList dbOk s).2

/-- States reachable from the initial empty state by some sequence of
handled requests. -/
def Reachable (sign : String → String) (s : ServerState) : Prop :=
  Relation.ReflTransGen (Step sign) initState s

/-! ## Helper lemmas -/

theorem removeById_fst_none (id : String) (l : List GuestRecord) :
    (removeById id l).1 = none ↔ ∀ r ∈ l, r.id ≠ id := by
  induction l with
  | nil => simp [removeById]
  | cons r rs ih =>
    by_cases h : r.id = id
    · simp [removeById, h]
    · simp [removeById, h, ih]

theorem removeById_spec_some (id : String) (l : List GuestRecord) :
    ∀ d rest, removeById id l = (some d, rest) →
      d.id = id ∧ l.Perm (d :: rest) := by
  induction l with
  | nil => intro d rest h; simp [removeById] at h
  | cons r rs ih =>
    intro d rest h
    rcases hm : removeById id rs with ⟨f, tail⟩
    by_cases hr : r.id = id
    · rw [removeById, if_pos hr, Prod.mk.injEq, Option.some.injEq] at h
      obtain ⟨hd, hrest⟩ := h
      subst hd
      subst hrest
      exact ⟨hr, List.Perm.refl _⟩
    · rw [removeById, if_neg hr] at h
      simp only [hm] at h
      rw [Prod.mk.injEq] at h
      obtain ⟨hd, hrest⟩ := h
      subst hd
      subst hrest
      obtain ⟨hid, hperm⟩ := ih d tail hm
      exact ⟨hid, (hperm.cons r).trans (List.Perm.swap d r tail)⟩

theorem removeById_snd_subset (id : String) (l : List GuestRecord) :
    ∀ r ∈ (removeById id l).2, r ∈ l := by
  induction l with
  | nil => simp [removeById]
  | cons r rs ih =>
    by_cases h : r.id = id
    · simp only [removeById, if_pos h]
      intro x hx
      exact List.mem_cons_of_mem r hx
    · simp only [removeById, if_neg h]
      intro x hx
      rcases List.mem_cons.mp hx with hx | hx
      · exact hx ▸ List.mem_cons_self r rs
      · exact List.mem_cons_of_mem r (ih x hx)

/-- Case analysis of the state effect of the fill-image handler: it leaves
the state unchanged, uploads the object only, or uploads the object and
appends the stored record whose `imagePath` is the signed URL of exactly
that object. -/
theorem fillImage_state (sign : String → String) (env : FillEnv)
    (name number twoNames : JSValue) (s : ServerState) :
    (fillImage sign env name number twoNames s).2 = s ∨
    (fillImage sign env name number twoNames s).2 =
      ⟨s.bucket ++ [env.fileName], s.records⟩ ∨
    (fillImage sign env name number twoNames s).2 =
      ⟨s.bucket ++ [env.fileName],
       s.records ++ [⟨env.newId, jsToString name, jsToString number,
                      sign env.fileName⟩]⟩ := by
  unfold fillImage
  split_ifs <;> simp

theorem deleteGuest_state (dbOk : Bool) (id : String) (s : ServerState) :
    (deleteGuest dbOk id s).2.bucket = s.bucket ∧
    ∀ r ∈ (deleteGuest dbOk id s).2.records, r ∈ s.records := by
  unfold deleteGuest
  split_ifs
  · exact ⟨rfl, fun r hr => hr⟩
  · exact ⟨rfl, fun r hr => hr⟩
  · rcases hm : removeById id s.records with ⟨f, tail⟩
    cases f with
    | none => exact ⟨rfl, fun r hr => hr⟩
    | some d =>
      refine ⟨rfl, fun r hr => ?_⟩
      have hsub := removeById_snd_subset id s.records r
      rw [hm] at hsub
      exact hsub hr

theorem getImage_state (dbOk fetchOk : Bool) (msg id : String)
    (s : ServerState) : (getImage dbOk fetchOk msg id s).2 = s := by
  unfold getImage
  cases hf : s.records.find? (fun r => r.id = id) with
  | none => split_ifs <;> rfl
  | some guest =>
    split_ifs <;> by_cases hg : guest.imagePath = "" <;> simp [hg]

theorem guestsList_state (dbOk : Bool) (s : ServerState) :
    (guestsList dbOk s).2 = s := by
  unfold guestsList
  split_ifs <;> rfl

/-- Referential invariant: every stored record's imagePath is the signed
URL issued for some object present in the bucket. -/
def ImagePathInv (sign : String → String) (s : ServerState) : Prop :=
  ∀ r ∈ s.records, ∃ obj ∈ s.bucket, r.imagePath = sign obj

theorem imagePathInv_step (sign : String → String) {s t : ServerState}
    (hst : Step sign s t) (hI : ImagePathInv sign s) : ImagePathInv sign t := by
  cases hst with
  | fill env name number twoNames s =>
    rcases fillImage_state sign env name number twoNames s with h | h | h <;> rw [h]
    · exact hI
    · intro r hr
      obtain ⟨o, ho, he⟩ := hI r hr
      exact ⟨o, List.mem_append_left _ ho, he⟩
    · intro r hr
      rcases List.mem_append.mp hr with hr | hr
      · obtain ⟨o, ho, he⟩ := hI r hr
        exact ⟨o, List.mem_append_left _ ho, he⟩
      · rw [List.mem_singleton] at hr
        subst hr
        exact ⟨env.fileName, List.mem_append_right _ (List.mem_singleton_self _), rfl⟩
  | del dbOk id s =>
    obtain ⟨hb, hsub⟩ := deleteGuest_state dbOk id s
    intro r hr
    obtain ⟨o, ho, he⟩ := hI r (hsub r hr)
    exact ⟨o, hb ▸ ho, he⟩
  | img dbOk fetchOk msg id s =>
    rw [getImage_state]
    exact hI
  | list dbOk s =>
    rw [guestsList_state]
    exact hI

theorem imagePathInv_reachable (sign : String → String) (s : ServerState)
    (h : Reachable sign s) : ImagePathInv sign s := by
  induction h with
  | refl => intro r hr; simp [initState] at hr
  | tail _ hstep ih => exact imagePathInv_step sign hstep ih

/-! ## Claim theorems -/

/-- C1: for every template surface of width `w` and height `h`, the name is
rendered at horizontal coordinate `w/2 - 50`, at vertical coordinate
`h/2 + 35` when `twoNames` is false and `h/2 - 180` when `twoNames` is
true; for the same `h`, `twoNames = true` places the text exactly 215
units higher than `twoNames = false`. -/
theorem fillText_placement (w h : ℚ) :
    fillTextX w = w / 2 - 50 ∧
    fillTextY h false = h / 2 + 35 ∧
    fillTextY h true = h / 2 - 180 ∧
    fillTextY h false - fillTextY h true = 215 := by
  refine ⟨rfl, ?_, ?_, ?_⟩ <;> simp [fillTextY, fillTextX] <;> ring

/-- C2 counterexample: the empty string has every character (vacuously) in
the designated Latin-or-whitespace set, yet `languageRegex.test` returns
false because the anchored `+` quantifier requires at least one character. -/
theorem languageRegexTest_empty_string :
    "".toList.all isLangChar = true ∧ languageRegexTest "" = false := by
  constructor
  · decide
  · simp [languageRegexTest]

/-- C2 (amended): for every non-empty name string, the Script Classifier
returns true iff every character belongs to the designated Latin letter
set or whitespace; in particular a non-empty name containing a character
outside the set yields false. -/
theorem languageRegexTest_characterization (s : String) (h : s ≠ "") :
    languageRegexTest s = true ↔ ∀ c ∈ s.toList, isLangChar c = true := by
  simp [languageRegexTest, h, List.all_eq_true]

theorem languageRegexTest_characterization_witness :
    ("Sara" : String) ≠ "" ∧ languageRegexTest "Sara" = true ∧
    languageRegexTest "Sara1" = false :=
  ⟨by decide,
   (languageRegexTest_characterization "Sara" (by decide)).mpr (by decide),
   by
    have h := languageRegexTest_characterization "Sara1" (by decide)
    rw [Bool.eq_false_iff]
    intro hc
    have := h.mp hc '1' (by decide)
    exact absurd this (by decide)⟩

/-- C9: a non-empty name consisting only of whitespace characters matches
`languageRegex`, is classified as Latin script, and is rendered with the
Latin (English) font. -/
theorem whitespace_only_classified_latin (s : String) (hne : s ≠ "")
    (hws : s.toList.all isJsWhitespace = true) :
    languageRegexTest s = true ∧ ctxFont s = "26px EnglishFont" := by
  have hall : s.toList.all isLangChar = true := by
    rw [List.all_eq_true] at hws ⊢
    intro c hc
    have hw := hws c hc
    simp [isLangChar, hw]
  have ht : languageRegexTest s = true := by
    unfold languageRegexTest
    rw [Bool.and_eq_true, decide_eq_true_eq]
    exact ⟨hne, hall⟩
  exact ⟨ht, by simp [ctxFont, englishText, ht]⟩

theorem whitespace_only_classified_latin_witness :
    (("   " : String) ≠ "" ∧ "   ".toList.all isJsWhitespace = true) ∧
    languageRegexTest "   " = true ∧ ctxFont "   " = "26px EnglishFont" :=
  ⟨⟨by decide, by decide⟩,
   whitespace_only_classified_latin "   " (by decide) (by decide)⟩

/-- C10: the `twoNames` flag is interpreted by JavaScript truthiness: any
truthy value (including the non-empty string "false") selects the
two-names vertical offset `h/2 - 180`, and any falsy or absent value
selects the single-name offset `h/2 + 35`. -/
theorem twoNames_truthiness (h : ℚ) (v : JSValue) :
    (truthy v = true → jsFillTextY h v = h / 2 - 180) ∧
    (truthy v = false → jsFillTextY h v = h / 2 + 35) ∧
    truthy (.str "false") = true ∧
    truthy .undefined = false := by
  refine ⟨?_, ?_, by decide, by decide⟩ <;>
    intro hv <;> simp [jsFillTextY, fillTextY, hv] <;> ring

theorem twoNames_truthiness_witness :
    truthy (.str "false") = true ∧
    jsFillTextY 600 (.str "false") = 600 / 2 - 180 :=
  ⟨by decide, (twoNames_truthiness 600 (.str "false")).1 (by decide)⟩

/-- C8: the presence check of POST /fill-image uses JavaScript
truthiness: the 400 "Name and number are required" response occurs
exactly when `name` or `number` is falsy, so the number 0 and the boolean
false are rejected while a whitespace-only string passes validation. -/
theorem fillImage_validation_truthiness (sign : String → String)
    (env : FillEnv) (name number twoNames : JSValue) (s : ServerState) :
    ((fillImage sign env name number twoNames s).1 =
        .badRequest ⟨"nok", "Name and number are required"⟩ ↔
      (truthy name = false ∨ truthy number = false)) ∧
    truthy (.num 0) = false ∧ truthy (.bool false) = false ∧
    truthy (.str " ") = true := by
  refine ⟨?_, by decide, by decide, by decide⟩
  unfold fillImage
  by_cases hn : truthy name <;> by_cases hm : truthy number <;>
    simp [hn, hm] <;> split_ifs <;> simp

/-- C4: a request whose name is missing or empty, or whose number is
missing or empty, is answered 400 with body
`{status:"nok", message:"Name and number are required"}` and the server
state (bucket and records) is left unchanged: no upload and no record
creation happen. -/
theorem fillImage_missing_field_400 (sign : String → String)
    (env : FillEnv) (name number twoNames : JSValue) (s : ServerState)
    (h : name = .undefined ∨ name = .str "" ∨
         number = .undefined ∨ number = .str "") :
    fillImage sign env name number twoNames s =
      (.badRequest ⟨"nok", "Name and number are required"⟩, s) := by
  rcases h with h | h | h | h <;> subst h <;> unfold fillImage <;> simp [truthy]

theorem fillImage_missing_field_400_witness :
    fillImage id ⟨true, true, true, true, "f", "i"⟩
        (.str "") (.str "5") .undefined initState =
      (.badRequest ⟨"nok", "Name and number are required"⟩, initState) :=
  fillImage_missing_field_400 id ⟨true, true, true, true, "f", "i"⟩
    (.str "") (.str "5") .undefined initState (Or.inr (Or.inl rfl))

/-- C7: on the success path with non-empty string name and number, the
handler answers 200 with a `card` equal to the stored record, whose name
and number are the submitted values and whose imagePath is the signed URL
issued for the uploaded object; the record is appended to the collection
and the object to the bucket. -/
theorem fillImage_success (sign : String → String) (env : FillEnv)
    (name number : String) (twoNames : JSValue) (s : ServerState)
    (hn : name ≠ "") (hm : number ≠ "")
    (ht : env.templateOk = true) (hu : env.uploadOk = true)
    (hs : env.signOk = true) (hd : env.dbOk = true) :
    fillImage sign env (.str name) (.str number) twoNames s =
      (.created ⟨env.newId, name, number, sign env.fileName⟩,
       ⟨s.bucket ++ [env.fileName],
        s.records ++ [⟨env.newId, name, number, sign env.fileName⟩]⟩) := by
  unfold fillImage
  simp [truthy, jsToString, hn, hm, ht, hu, hs, hd]

theorem fillImage_success_witness :
    fillImage (fun _ => "https://signed.example/card.jpg")
      ⟨true, true, true, true, "hedayat/1700000000000_edited-image.jpg", "65a1b2"⟩
      (.str "Sara") (.str "12") .undefined initState =
      (.created ⟨"65a1b2", "Sara", "12", "https://signed.example/card.jpg"⟩,
       ⟨["hedayat/1700000000000_edited-image.jpg"],
        [⟨"65a1b2", "Sara", "12", "https://signed.example/card.jpg"⟩]⟩) :=
  fillImage_success (fun _ => "https://signed.example/card.jpg")
    ⟨true, true, true, true, "hedayat/1700000000000_edited-image.jpg", "65a1b2"⟩
    "Sara" "12" .undefined initState (by decide) (by decide) rfl rfl rfl rfl

/-- C6: for a well-formed id under normal store operation, deleting an
absent record answers 404 `{status:"not found", message:"Record not
found"}` with the collection unchanged, and deleting a present record
answers 200 with status, message and the deleted record, which is removed
from the collection (the old collection is a permutation of the deleted
record consed onto the new one). -/
theorem deleteGuest_spec (id : String) (s : ServerState)
    (hid : isValidObjectId id = true) :
    ((∀ r ∈ s.records, r.id ≠ id) →
        deleteGuest true id s =
          (.notFound ⟨"not found", "Record not found"⟩, s)) ∧
    ((∃ r ∈ s.records, r.id = id) →
        ∃ d rest, d.id = id ∧ s.records.Perm (d :: rest) ∧
          deleteGuest true id s =
            (.deleted "success" "Record deleted successfully" d,
             ⟨s.bucket, rest⟩)) := by
  constructor
  · intro habs
    unfold deleteGuest
    rcases hm : removeById id s.records with ⟨f, tail⟩
    cases f with
    | none => simp [hid]
    | some d =>
      exfalso
      obtain ⟨hdid, hperm⟩ := removeById_spec_some id s.records d tail hm
      have hd_mem : d ∈ s.records := hperm.mem_iff.mpr (List.mem_cons_self d tail)
      exact habs d hd_mem hdid
  · rintro ⟨r, hr, hrid⟩
    unfold deleteGuest
    rcases hm : removeById id s.records with ⟨f, tail⟩
    cases f with
    | none =>
      exfalso
      have hnone := (removeById_fst_none id s.records).mp (by rw [hm])
      exact hnone r hr hrid
    | some d =>
      obtain ⟨hdid, hperm⟩ := removeById_spec_some id s.records d tail hm
      refine ⟨d, tail, hdid, hperm, ?_⟩
      simp [hid]

theorem deleteGuest_spec_witness :
    isValidObjectId "0123456789abcdef01234567" = true ∧
    ∃ d rest, d.id = "0123456789abcdef01234567" ∧
      [(⟨"0123456789abcdef01234567", "Sara", "12", "url"⟩ : GuestRecord)].Perm
        (d :: rest) ∧
      deleteGuest true "0123456789abcdef01234567"
          ⟨["obj"], [⟨"0123456789abcdef01234567", "Sara", "12", "url"⟩]⟩ =
        (.deleted "success" "Record deleted successfully" d, ⟨["obj"], rest⟩) :=
  ⟨by decide,
   (deleteGuest_spec "0123456789abcdef01234567"
      ⟨["obj"], [⟨"0123456789abcdef01234567", "Sara", "12", "url"⟩]⟩
      (by decide)).2
     ⟨⟨"0123456789abcdef01234567", "Sara", "12", "url"⟩,
      List.mem_singleton_self _, rfl⟩⟩

/-- C5 counterexample: DELETE /guests_list/:id given the malformed id
"abc" is answered 500 `{status:"nok", message:"Failed to delete guest"}`
(the store's cast failure lands in the generic catch block), not the 400
the claim asserts for every identifier-taking operation. -/
theorem delete_malformed_id_500 :
    isValidObjectId "abc" = false ∧
    deleteGuest true "abc" initState =
      (.serverError ⟨"nok", "Failed to delete guest"⟩, initState) :=
  ⟨by decide, by decide⟩

/-- C5 (amended): GET /get-image/:id reports a malformed id with 400
`{status:"nok", message:"Invalid guest ID"}`, distinct from its 404
not-found response, leaving the state unchanged; DELETE /guests_list/:id
performs no malformed-id check, so a malformed id surfaces as the generic
500 store error rather than a 400. -/
theorem malformed_id_handling (id : String) (s : ServerState)
    (dbOk fetchOk : Bool) (msg : String)
    (h : isValidObjectId id = false) :
    getImage dbOk fetchOk msg id s =
      (.badRequest ⟨"nok", "Invalid guest ID"⟩, s) ∧
    GetImageResponse.badRequest ⟨"nok", "Invalid guest ID"⟩ ≠
      .notFound ⟨"not found", "Guest or image not found"⟩ ∧
    ∀ dOk : Bool, deleteGuest dOk id s =
      (.serverError ⟨"nok", "Failed to delete guest"⟩, s) := by
  refine ⟨?_, by simp, fun dOk => ?_⟩
  · unfold getImage
    simp [h]
  · unfold deleteGuest
    simp [h]

theorem malformed_id_handling_witness :
    isValidObjectId "abc" = false ∧
    getImage true true "" "abc" initState =
      (.badRequest ⟨"nok", "Invalid guest ID"⟩, initState) :=
  ⟨by decide, (malformed_id_handling "abc" initState true true "" (by decide)).1⟩

/-- C3: upload-before-record ordering and the orphan property: in every
reachable state each stored record's imagePath is the signed URL of an
object present in the bucket (uploaded before the record existed); when
the upload fails no record is created; and when the database write fails
after a successful upload, the collection is unchanged while the uploaded
object stays in the bucket with no compensating cleanup. -/
theorem fillImage_write_ordering (sign : String → String) :
    (∀ s, Reachable sign s →
        ∀ r ∈ s.records, ∃ obj ∈ s.bucket, r.imagePath = sign obj) ∧
    (∀ (env : FillEnv) (name number twoNames : JSValue) (s : ServerState),
        env.uploadOk = false →
        (fillImage sign env name number twoNames s).2.records = s.records) ∧
    (∀ (env : FillEnv) (name number twoNames : JSValue) (s : ServerState),
        truthy name = true → truthy number = true →
        env.templateOk = true → env.uploadOk = true → env.signOk = true →
        env.dbOk = false →
        (fillImage sign env name number twoNames s).2.records = s.records ∧
        env.fileName ∈ (fillImage sign env name number twoNames s).2.bucket) := by
  refine ⟨fun s h => imagePathInv_reachable sign s h, ?_, ?_⟩
  · intro env name number twoNames s hup
    unfold fillImage
    split_ifs <;> simp_all
  · intro env name number twoNames s hn hm ht hu hsg hd
    unfold fillImage
    simp [hn, hm, ht, hu, hsg, hd]

theorem fillImage_write_ordering_witness :
    (fillImage (fun n => n) ⟨true, true, true, false, "obj1", "id1"⟩
        (.str "Sara") (.str "12") .undefined initState).2.records =
      initState.records ∧
    "obj1" ∈ (fillImage (fun n => n) ⟨true, true, true, false, "obj1", "id1"⟩
        (.str "Sara") (.str "12") .undefined initState).2.bucket :=
  (fillImage_write_ordering (fun n => n)).2.2
    ⟨true, true, true, false, "obj1", "id1"⟩ (.str "Sara") (.str "12")
    .undefined initState (by decide) (by decide) rfl rfl rfl rfl

end Hedayat
